import Mathlib

/-!
Shallow embedding of the monitoring/aggregation core of the
Claude-Code-Usage-Monitor repository (files `src/claude_monitor/cli/main.py`
and `src/claude_monitor/ui/table_views.py`), together with spec-modelled
definitions for collaborators that are referenced but whose code is not part
of the sources (the `UsageAggregator`, `get_token_limit` / `Plans`, and
`TimezoneHandler.parse_timestamp`).

Python values appearing in raw usage records are modelled by `RawValue`;
Python's `int(...)` / `float(...)` / `str(...)` conversions are modelled by
`pyInt` / `pyFloat` / `pyStr`, returning `Except PyErr _` where the Python
functions can raise `ValueError` / `TypeError`.  Machine-level concerns do not
arise: Python integers are arbitrary precision (modelled by `Int`) and costs
are modelled by `Rat`.
-/

namespace ClaudeMonitor

/-- Kinds of Python exceptions relevant to the embedded code paths. -/
inductive PyErr where
  | valueError (msg : String)
  | typeError (msg : String)
  | fileNotFound
  | permissionError
  | otherError (msg : String)
deriving Repr, DecidableEq

/-- A raw Python value as found in a usage-record dict: an int, a float
(modelled as a rational), a string, or `None`. -/
inductive RawValue where
  | vint (n : Int)
  | vfloat (q : Rat)
  | vstr (s : String)
  | vnull
deriving Repr, DecidableEq

/-- Truncation toward zero, Python's `int(float)` behaviour. -/
def truncRat (q : Rat) : Int :=
  if 0 ≤ q then ⌊q⌋ else ⌈q⌉

/-- The numeric value of a decimal digit character, `none` otherwise. -/
def charDigit (c : Char) : Option Nat :=
  if '0' ≤ c ∧ c ≤ '9' then some (c.toNat - '0'.toNat) else none

/-- Accumulate a base-10 numeral from a character list. -/
def natOfCharsAux (acc : Nat) : List Char → Option Nat
  | [] => some acc
  | c :: cs =>
    match charDigit c with
    | some d => natOfCharsAux (acc * 10 + d) cs
    | none => none

/-- Parse a non-empty all-digit character list as a natural number. -/
def natOfChars (cs : List Char) : Option Nat :=
  match cs with
  | [] => none
  | _ => natOfCharsAux 0 cs

/-- Parse a base-10 integer numeral with optional sign.  Models Python
`int(str)` (up to surface details such as surrounding whitespace, which no
raw record in the claims carries): `none` models `ValueError`. -/
def strToInt (s : String) : Option Int :=
  match s.data with
  | '-' :: rest => (natOfChars rest).map (fun n => -(n : Int))
  | '+' :: rest => (natOfChars rest).map (fun n => (n : Int))
  | cs => (natOfChars cs).map (fun n => (n : Int))

/-- Split a character list at the first dot; `none` when a second dot
occurs. -/
def splitOnDot : List Char → Option (List Char × Option (List Char))
  | [] => some ([], none)
  | c :: rest =>
    if c = '.' then
      if rest.contains '.' then none else some ([], some rest)
    else
      match splitOnDot rest with
      | some (a, b) => some (c :: a, b)
      | none => none

/-- Parse an unsigned decimal literal (digits with an optional fractional
part) as a rational. -/
def unsignedDecimal (cs : List Char) : Option Rat :=
  match splitOnDot cs with
  | some (a, none) => (natOfChars a).map (fun n => (n : Rat))
  | some (a, some b) =>
    match natOfChars a, natOfChars b with
    | some n, some f => some ((n : Rat) + (f : Rat) / ((10 : Rat) ^ b.length))
    | _, _ => none
  | none => none

/-- Parse a decimal literal (optional sign, digits, optional fractional part)
as a rational; `none` models Python `float(str)` raising `ValueError`. -/
def parseDecimal (s : String) : Option Rat :=
  match s.data with
  | '-' :: rest => (unsignedDecimal rest).map (fun q => -q)
  | '+' :: rest => unsignedDecimal rest
  | cs => unsignedDecimal cs

/-- Python `int(x)`: identity on ints, truncation on floats, base-10 parse on
strings (`ValueError` on failure), `TypeError` on `None`. -/
def pyInt (v : RawValue) : Except PyErr Int :=
  match v with
  | .vint n => .ok n
  | .vfloat q => .ok (truncRat q)
  | .vstr s =>
    match strToInt s with
    | some n => .ok n
    | none => .error (.valueError s)
  | .vnull => .error (.typeError "int() argument must not be None")

/-- Python `float(x)`: ints and floats convert, strings are parsed as decimal
literals (`ValueError` on failure), `None` raises `TypeError`. -/
def pyFloat (v : RawValue) : Except PyErr Rat :=
  match v with
  | .vint n => .ok (n : Rat)
  | .vfloat q => .ok q
  | .vstr s =>
    match parseDecimal s with
    | some q => .ok q
    | none => .error (.valueError s)
  | .vnull => .error (.typeError "float() argument must not be None")

/-- Python `str(x)`: never raises. -/
def pyStr (v : RawValue) : String :=
  match v with
  | .vint n => toString n
  | .vfloat q => toString q
  | .vstr s => s
  | .vnull => "None"

/-- Embedding of `core.models.UsageEntry` as constructed by `_run_table_view`
(`cli/main.py` lines 473-483): timestamps are timezone-aware instants,
modelled as seconds (`Nat`); token fields are Python ints; cost is a real,
modelled as `Rat`. -/
structure UsageEntry where
  timestamp : Nat
  input_tokens : Int
  output_tokens : Int
  cache_creation_tokens : Int
  cache_read_tokens : Int
  cost_usd : Rat
  model : String
  message_id : String
  request_id : String
deriving Repr, DecidableEq

/-- One raw entry dict inside a block, as consumed by `_run_table_view`.
Each field is `none` when the corresponding key is absent from the dict, so
`Option.getD` models Python's `dict.get(key, default)`.  The timestamp value
is kept as a string (the code treats it as one). -/
structure RawEntryData where
  timestamp : Option String := none
  inputTokens : Option RawValue := none
  outputTokens : Option RawValue := none
  cacheCreationTokens : Option RawValue := none
  cacheReadTokens : Option RawValue := none
  costUSD : Option RawValue := none
  model : Option RawValue := none
  messageId : Option RawValue := none
  requestId : Option RawValue := none
deriving Repr, DecidableEq

/-- Modelled from the spec: `TimezoneHandler.parse_timestamp`
(`utils/time_utils.py`, not under the provided sources).  Per §4.1/§6 of the
spec, an unparseable timestamp string raises (`ValueError`) and the record is
then dropped by the caller; a parseable one yields a timezone-aware instant,
modelled as seconds. -/
def parse_timestamp (s : String) : Except PyErr Nat :=
  match natOfChars s.data with
  | some n => .ok n
  | none => .error (.valueError s)

/-- The per-entry body of the extraction loop in `_run_table_view`
(`cli/main.py` lines 462-490): `none` means the record was skipped (missing
timestamp, or a `ValueError`/`TypeError` from `parse_timestamp` /
`int(...)` / `float(...)` caught by the surrounding `except`), `some e` means
the constructed `UsageEntry` was appended. -/
def parseEntry (raw : RawEntryData) : Option UsageEntry :=
  if raw.timestamp.getD "" = "" then none
  else
    match parse_timestamp (raw.timestamp.getD "") with
    | .error _ => none
    | .ok ts =>
      match pyInt (raw.inputTokens.getD (.vint 0)),
            pyInt (raw.outputTokens.getD (.vint 0)),
            pyInt (raw.cacheCreationTokens.getD (.vint 0)),
            pyInt (raw.cacheReadTokens.getD (.vint 0)),
            pyFloat (raw.costUSD.getD (.vfloat 0)) with
      | .ok i, .ok o, .ok cc, .ok cr, .ok c =>
        some
          { timestamp := ts
            input_tokens := max 0 i
            output_tokens := max 0 o
            cache_creation_tokens := max 0 cc
            cache_read_tokens := max 0 cr
            cost_usd := max 0 c
            model := pyStr (raw.model.getD (.vstr ""))
            message_id := pyStr (raw.messageId.getD (.vstr ""))
            request_id := pyStr (raw.requestId.getD (.vstr "")) }
      | _, _, _, _, _ => none

/-- One block dict from `analyze_usage`'s result: the extraction loop reads
`isGap` and `entries`; the token-limit path additionally reads `isActive` and
`totalTokens`. -/
structure RawBlock where
  isGap : Bool := false
  isActive : Bool := false
  totalTokens : Int := 0
  entries : List RawEntryData := []
deriving Repr, DecidableEq

/-- Inner entry loop of `_run_table_view` over one block's `entries` list:
returns the entries kept, in order, together with the number of records
skipped with a logged warning. -/
def extractBlockLog : List RawEntryData → List UsageEntry × Nat
  | [] => ([], 0)
  | raw :: rest =>
    let r := extractBlockLog rest
    match parseEntry raw with
    | some e => (e :: r.1, r.2)
    | none => (r.1, r.2 + 1)

/-- Outer block loop of `_run_table_view` (`cli/main.py` lines 455-494):
gap blocks are skipped entirely; entries of the other blocks are accumulated
in order.  The second component counts skipped records (logged warnings). -/
def extractLog : List RawBlock → List UsageEntry × Nat
  | [] => ([], 0)
  | b :: rest =>
    let r := extractLog rest
    if b.isGap then r
    else
      let here := extractBlockLog b.entries
      (here.1 ++ r.1, here.2 + r.2)

/-- The entry list produced by `_run_table_view`'s extraction. -/
def extractEntries (blocks : List RawBlock) : List UsageEntry :=
  (extractLog blocks).1

/-- One aggregate row (daily or monthly) as consumed by the table views:
a dict with a period key (`date` / `month`), the four summed token
categories, the summed cost, the distinct model names and the entry count. -/
structure AggRow where
  period : String
  input_tokens : Int := 0
  output_tokens : Int := 0
  cache_creation_tokens : Int := 0
  cache_read_tokens : Int := 0
  total_cost : Rat := 0
  models_used : List String := []
  entries_count : Nat := 0
deriving Repr, DecidableEq

/-- Modelled from the spec: day-key extraction inside
`UsageAggregator.aggregate_daily` (`data/aggregator.py`, not under the
provided sources).  §4.4: period key by date truncation of the entry's
timestamp; with instants modelled as seconds this is the day number. -/
def dayKey (t : Nat) : Nat := t / 86400

/-- Modelled from the spec: month-key extraction inside
`UsageAggregator.aggregate_monthly` (`data/aggregator.py`, not under the
provided sources).  §4.4: period key by year-month truncation; calendar
months are approximated by 30-day periods, which no settled claim depends
on. -/
def monthKey (t : Nat) : Nat := t / 2592000

/-- Add a model name to a distinct, insertion-ordered model list (spec §4.4:
distinct non-empty model names, first-appearance order). -/
def addModel (models : List String) (m : String) : List String :=
  if m = "" then models
  else if m ∈ models then models
  else models ++ [m]

/-- Fold one entry into the aggregate row for its period. -/
def addEntryToRow (row : AggRow) (e : UsageEntry) : AggRow :=
  { row with
    input_tokens := row.input_tokens + e.input_tokens
    output_tokens := row.output_tokens + e.output_tokens
    cache_creation_tokens := row.cache_creation_tokens + e.cache_creation_tokens
    cache_read_tokens := row.cache_read_tokens + e.cache_read_tokens
    total_cost := row.total_cost + e.cost_usd
    models_used := addModel row.models_used e.model
    entries_count := row.entries_count + 1 }

/-- Insert into an association list keyed by period, creating the row on
first appearance of the key. -/
def upsertRow (e : UsageEntry) (k : Nat) : List (Nat × AggRow) → List (Nat × AggRow)
  | [] => [(k, addEntryToRow { period := toString k } e)]
  | (k₂, row) :: rest =>
    if k = k₂ then (k₂, addEntryToRow row e) :: rest
    else (k₂, row) :: upsertRow e k rest

/-- Insert a keyed row into a list sorted by key descending. -/
def insertRowDesc (p : Nat × AggRow) : List (Nat × AggRow) → List (Nat × AggRow)
  | [] => [p]
  | q :: rest => if q.1 ≤ p.1 then p :: q :: rest else q :: insertRowDesc p rest

/-- Sort keyed rows by key descending (spec §4.4: most recent period
first). -/
def sortRowsDesc (l : List (Nat × AggRow)) : List (Nat × AggRow) :=
  l.foldr insertRowDesc []

/-- Modelled from the spec: the shared grouping algorithm of
`UsageAggregator` (`data/aggregator.py`, not under the provided sources),
parameterized by period-key extraction.  §4.4: group entries by period key,
sum the four token categories and cost, accumulate distinct non-empty model
names in insertion order, count entries, and order rows by period key
descending. -/
def aggregateBy (key : Nat → Nat) (entries : List UsageEntry) : List AggRow :=
  let keyed := entries.foldl (fun acc e => upsertRow e (key e.timestamp) acc) []
  (sortRowsDesc keyed).map (·.2)

/-- Modelled from the spec: `UsageAggregator.aggregate_daily`. -/
def aggregate_daily (entries : List UsageEntry) : List AggRow :=
  aggregateBy dayKey entries

/-- Modelled from the spec: `UsageAggregator.aggregate_monthly`. -/
def aggregate_monthly (entries : List UsageEntry) : List AggRow :=
  aggregateBy monthKey entries

/-- The totals record consumed by the table views and the summary panel:
grand sums of the per-period fields plus the overall entry count, and the
explicit empty-entries indicator for an empty input row sequence. -/
structure Totals where
  input_tokens : Int := 0
  output_tokens : Int := 0
  cache_creation_tokens : Int := 0
  cache_read_tokens : Int := 0
  total_tokens : Int := 0
  total_cost : Rat := 0
  entries_count : Nat := 0
  is_empty : Bool := false
deriving Repr, DecidableEq

/-- Modelled from the spec: `UsageAggregator.calculate_totals`
(`data/aggregator.py`, not under the provided sources).  §4.4: consumes the
aggregate rows and reproduces exact sums; on an empty row sequence it returns
a totals record with all-zero numeric fields and an explicit empty-entries
indicator rather than failing. -/
def calculate_totals (rows : List AggRow) : Totals :=
  { input_tokens := (rows.map (·.input_tokens)).sum
    output_tokens := (rows.map (·.output_tokens)).sum
    cache_creation_tokens := (rows.map (·.cache_creation_tokens)).sum
    cache_read_tokens := (rows.map (·.cache_read_tokens)).sum
    total_tokens :=
      (rows.map (·.input_tokens)).sum + (rows.map (·.output_tokens)).sum
        + (rows.map (·.cache_creation_tokens)).sum
        + (rows.map (·.cache_read_tokens)).sum
    total_cost := (rows.map (·.total_cost)).sum
    entries_count := (rows.map (·.entries_count)).sum
    is_empty := rows.isEmpty }

/-- One rendered table cell.  `num n` stands for the string cell
`format_number(n)` and `money q` for `format_currency(q)` (the formatting
helpers live in `utils/formatting.py`, outside the provided sources; keeping
the numeric payload structured is the deferred formatting). -/
inductive Cell where
  | text (s : String)
  | num (n : Int)
  | money (q : Rat)
deriving Repr, DecidableEq

/-- A rich table as built by `TableViewsController`: title, column headers,
and the rows in the order they were added (data rows, then the blank
separator row, then the totals row). -/
structure RichTable where
  title : String
  columns : List String
  rows : List (List Cell)
deriving Repr, DecidableEq

/-- Embedding of `TableViewsController._format_models` (`ui/table_views.py` lines
213-229). -/
def formatModels (models : List String) : String :=
  match models with
  | [] => "No models"
  | [m] => m
  | _ => String.intercalate "\n" (models.map (fun m => "• " ++ m))

/-- The column headers shared by the daily and monthly tables, except for the
first. -/
def tableColumns (first : String) : List String :=
  [first, "Models", "Input", "Output", "Cache Create", "Cache Read",
   "Total Tokens", "Cost (USD)"]

/-- One data row of the daily/monthly table (`ui/table_views.py` lines 70-88
and 142-160): the `Total Tokens` cell is computed as the sum of the row's
four token fields before being added. -/
def dataRow (d : AggRow) : List Cell :=
  [.text d.period,
   .text (formatModels d.models_used),
   .num d.input_tokens,
   .num d.output_tokens,
   .num d.cache_creation_tokens,
   .num d.cache_read_tokens,
   .num (d.input_tokens + d.output_tokens
     + d.cache_creation_tokens + d.cache_read_tokens),
   .money d.total_cost]

/-- The blank separator row (`table.add_row("", "", ...)`). -/
def separatorRow : List Cell := List.replicate 8 (.text "")

/-- The totals row appended at the bottom of both tables. -/
def totalsRow (totals : Totals) : List Cell :=
  [.text "Total",
   .text "",
   .num totals.input_tokens,
   .num totals.output_tokens,
   .num totals.cache_creation_tokens,
   .num totals.cache_read_tokens,
   .num totals.total_tokens,
   .money totals.total_cost]

/-- Embedding of `TableViewsController.create_daily_table` (`ui/table_views.py` lines
35-105). -/
def create_daily_table (daily_data : List AggRow) (totals : Totals)
    (timezone : String) : RichTable :=
  { title := "Claude Code Token Usage Report - Daily (" ++ timezone ++ ")"
    columns := tableColumns "Date"
    rows := daily_data.map dataRow ++ [separatorRow, totalsRow totals] }

/-- Embedding of `TableViewsController.create_monthly_table` (`ui/table_views.py` lines
107-177). -/
def create_monthly_table (monthly_data : List AggRow) (totals : Totals)
    (timezone : String) : RichTable :=
  { title := "Claude Code Token Usage Report - Monthly (" ++ timezone ++ ")"
    columns := tableColumns "Month"
    rows := monthly_data.map dataRow ++ [separatorRow, totalsRow totals] }

/-- Embedding of `TableViewsController.create_aggregate_table` (`ui/table_views.py` lines
257-283): dispatches on `view_type` and raises `ValueError` for anything
other than `daily` / `monthly`. -/
def create_aggregate_table (aggregate_data : List AggRow) (totals : Totals)
    (view_type : String) (timezone : String) : Except PyErr RichTable :=
  if view_type = "daily" then
    .ok (create_daily_table aggregate_data totals timezone)
  else if view_type = "monthly" then
    .ok (create_monthly_table aggregate_data totals timezone)
  else
    .error (.valueError ("Invalid view type: " ++ view_type))

/-- The result dict of `analyze_usage`: `blocks` is `none` when the `blocks`
key is missing from the dict. -/
structure UsageData where
  blocks : Option (List RawBlock) := none
deriving Repr, DecidableEq

/-- Observable outcome of one `_run_table_view` call: the `(message, style)`
pairs passed to `print_themed`, and whether the aggregation, totals
calculation and table rendering stages were reached. -/
structure TableViewTrace where
  messages : List (String × String) := []
  aggregated : Bool := false
  totalsComputed : Bool := false
  rendered : Bool := false
deriving Repr, DecidableEq

/-- Embedding of `_run_table_view` (`cli/main.py` lines 375-577) as a function of its
inputs and of the outcome of the `analyze_usage` call (an exception, a falsy
result, or a usage-data dict).  The rich-console prints of the rendered table
are summarized by the `rendered` flag; `messages` records the `print_themed`
calls. -/
def runTableView (view_mode : String) (dataPath : String)
    (pathExists : Bool) (pathIsDir : Bool)
    (analysis : Except PyErr (Option UsageData)) : TableViewTrace :=
  if view_mode ≠ "daily" ∧ view_mode ≠ "monthly" then
    { messages := [("Invalid view mode: " ++ view_mode
        ++ ". Must be 'daily' or 'monthly'", "error")] }
  else if !pathExists then
    { messages := [("Data path does not exist: " ++ dataPath, "error")] }
  else if !pathIsDir then
    { messages := [("Data path is not a directory: " ++ dataPath, "error")] }
  else
    match analysis with
    | .error .fileNotFound =>
      { messages := [("No Claude usage data files found. Please use Claude Code to generate some data.", "warning")] }
    | .error .permissionError =>
      { messages := [("Permission denied accessing usage data. Check file permissions.", "error")] }
    | .error _ =>
      { messages := [("Failed to analyze usage data", "error")] }
    | .ok none =>
      { messages := [("No usage data found for " ++ view_mode ++ " view", "warning")] }
    | .ok (some usage_data) =>
      match usage_data.blocks with
      | none =>
        { messages := [("Usage data format is invalid (missing blocks)", "error")] }
      | some blocks =>
        if blocks.isEmpty then
          { messages := [("No usage blocks found in the data", "warning")] }
        else
          let entries := extractEntries blocks
          if entries.isEmpty then
            { messages := [("No valid usage entries found in the data", "warning")] }
          else
            let aggregated_data :=
              if view_mode = "daily" then aggregate_daily entries
              else aggregate_monthly entries
            if aggregated_data.isEmpty then
              { messages := [("No " ++ view_mode ++ " data to display after aggregation", "warning")]
                aggregated := true }
            else
              { messages := []
                aggregated := true
                totalsComputed := true
                rendered := true }

/-- Embedding of `get_standard_claude_paths` (`cli/main.py` lines 42-44). -/
def get_standard_claude_paths : List String :=
  ["~/.claude/projects", "~/.config/claude/projects"]

/-- The filesystem facts `discover_claude_data_paths` consults: existence and
directory-ness of a path, and the `expanduser().resolve()` normalization. -/
structure FS where
  pathExists : String → Bool
  isDir : String → Bool
  expand : String → String

/-- Embedding of `discover_claude_data_paths` (`cli/main.py` lines 47-67): check the
custom paths when a non-empty list is given (Python truthiness), else the
standard paths; keep each normalized path that exists and is a directory. -/
def discover_claude_data_paths (fs : FS) (custom_paths : Option (List String)) :
    List String :=
  let paths_to_check :=
    match custom_paths with
    | some ps => if ps.isEmpty then get_standard_claude_paths else ps
    | none => get_standard_claude_paths
  (paths_to_check.map fs.expand).filter (fun p => fs.pathExists p && fs.isDir p)

/-- Observable outcome of the startup portion of `_run_monitoring`: the
`print_themed` calls made, and whether a `MonitoringOrchestrator` was
constructed (and its refresh loop started). -/
structure MonitoringStart where
  messages : List (String × String) := []
  orchestratorConstructed : Bool := false
deriving Repr, DecidableEq

/-- The dispatch at the top of `_run_monitoring` (`cli/main.py` lines
108-134): when no Claude data directory is discovered, the absence is
reported once with an error-styled message and the function returns before
any orchestrator is constructed; `daily`/`monthly` view modes branch into
`_run_table_view` (no orchestrator either); otherwise the realtime path
constructs and starts the orchestrator. -/
def runMonitoringStart (fs : FS) (view_mode : String) : MonitoringStart :=
  if (discover_claude_data_paths fs none).isEmpty then
    { messages := [("No Claude data directory found", "error")]
      orchestratorConstructed := false }
  else if view_mode = "daily" ∨ view_mode = "monthly" then
    { messages := [], orchestratorConstructed := false }
  else
    { messages := [], orchestratorConstructed := true }

/-- Modelled from the spec: `Plans.DEFAULT_TOKEN_LIMIT` (`core/plans.py`,
not under the provided sources).  §4.3/§7: a fixed positive default limit;
the spec leaves the numeric value open, so any fixed positive constant is
faithful. -/
def DEFAULT_TOKEN_LIMIT : Int := 44000

/-- Modelled from the spec: the minimum-history threshold of the token limit
estimator (`core/plans.py`, not under the provided sources).  The spec
leaves the constant open (§9) and requires only that fewer completed blocks
than this degrade to the default. -/
def MIN_HISTORY_THRESHOLD : Nat := 8

/-- Insertion into an ascending-sorted list of token totals. -/
def insertSorted (x : Int) : List Int → List Int
  | [] => [x]
  | y :: ys => if x ≤ y then x :: y :: ys else y :: insertSorted x ys

/-- Ascending insertion sort over token totals. -/
def sortInts (l : List Int) : List Int := l.foldr insertSorted []

/-- Modelled from the spec: the 90th percentile over an ascending-sorted
value list with linear interpolation between order statistics (§4.3: index =
p/100 × (n−1), interpolate between floor and ceil index), with the result
taken as an integer. -/
def percentile90 (sorted : List Int) : Int :=
  match sorted with
  | [] => 0
  | _ =>
    let idx10 := 9 * (sorted.length - 1)
    let lo := idx10 / 10
    let frac : Int := idx10 % 10
    let a := sorted.getD lo 0
    let b := sorted.getD (lo + 1) a
    a + (b - a) * frac / 10

/-- Modelled from the spec: `get_token_limit` (`core/plans.py`, not under
the provided sources).  §4.3: with block history, compute the 90th
percentile of `totalTokens` across completed (non-active, non-gap) blocks;
with fewer completed blocks than the minimum-history threshold, return the
plan default.  Per the spec's contract that the result is always a positive
integer, a non-positive percentile also degrades to the default. -/
def get_token_limit (blocks : List RawBlock) : Int :=
  let completed := blocks.filter (fun b => !b.isActive && !b.isGap)
  if completed.length < MIN_HISTORY_THRESHOLD then DEFAULT_TOKEN_LIMIT
  else
    let p := percentile90 (sortInts (completed.map (·.totalTokens)))
    if p ≤ 0 then DEFAULT_TOKEN_LIMIT else p

/-- Modelled from the spec: `get_token_limit(plan)` for a standard
(non-custom) plan (`core/plans.py`, not under the provided sources): a fixed
positive per-plan limit.  The spec leaves the values open. -/
def planTokenLimit (plan : String) : Int :=
  if plan = "pro" then 19000
  else if plan = "max5" then 88000
  else if plan = "max20" then 220000
  else DEFAULT_TOKEN_LIMIT

/-- The argparse namespace fields `_get_initial_token_limit` reads:
`custom_limit_tokens = none` models the attribute being absent or `None`. -/
structure Args where
  plan : String
  custom_limit_tokens : Option Int := none
deriving Repr, DecidableEq

/-- Python truthiness of `args.custom_limit_tokens` guarded by `hasattr`:
present and neither `None` nor `0`. -/
def customLimitTruthy (o : Option Int) : Bool :=
  match o with
  | some v => v ≠ 0
  | none => false

/-- Embedding of `_get_initial_token_limit` (`cli/main.py` lines 257-306) as a function of
the namespace and of the outcome of the `analyze_usage` call.  The returned
flag records whether the usage-data analysis path was entered (the function
read usage data); the whole analysis/limit computation sits in a
`try/except Exception`, so an analysis exception falls through to the
default limit. -/
def getInitialTokenLimit (args : Args)
    (analysis : Except PyErr (Option UsageData)) : Int × Bool :=
  if args.plan = "custom" then
    if customLimitTruthy args.custom_limit_tokens then
      (args.custom_limit_tokens.getD 0, false)
    else
      match analysis with
      | .error _ => (DEFAULT_TOKEN_LIMIT, true)
      | .ok none => (DEFAULT_TOKEN_LIMIT, true)
      | .ok (some usage_data) =>
        match usage_data.blocks with
        | none => (DEFAULT_TOKEN_LIMIT, true)
        | some blocks => (get_token_limit blocks, true)
  else
    (planTokenLimit args.plan, false)

/-- A raw record that the extraction loop skips with a logged warning:
its timestamp is missing (or empty), its timestamp fails to parse, or one of
its token/cost fields fails numeric conversion. -/
def malformedRecord (raw : RawEntryData) : Prop :=
  raw.timestamp.getD "" = "" ∨
  (∃ err, parse_timestamp (raw.timestamp.getD "") = .error err) ∨
  (∃ err, pyInt (raw.inputTokens.getD (.vint 0)) = .error err) ∨
  (∃ err, pyInt (raw.outputTokens.getD (.vint 0)) = .error err) ∨
  (∃ err, pyInt (raw.cacheCreationTokens.getD (.vint 0)) = .error err) ∨
  (∃ err, pyInt (raw.cacheReadTokens.getD (.vint 0)) = .error err) ∨
  (∃ err, pyFloat (raw.costUSD.getD (.vfloat 0)) = .error err)

/-- A filesystem on which no path exists, used to exercise the missing-data
startup path. -/
def fsAbsent : FS :=
  { pathExists := fun _ => false, isDir := fun _ => false, expand := fun s => s }

/-- A sample aggregate row with token fields 1, 2, 3 and 4, used to exercise
the table-row property on concrete data. -/
def sampleRow : AggRow :=
  { period := "2024-01-01", input_tokens := 1, output_tokens := 2,
    cache_creation_tokens := 3, cache_read_tokens := 4 }

lemma parseEntry_of_malformed (raw : RawEntryData) (hm : malformedRecord raw) :
    parseEntry raw = none := by
  unfold parseEntry
  by_cases hts : raw.timestamp.getD "" = ""
  · simp [hts]
  · rw [if_neg hts]
    rcases hm with h | ⟨e₁, h⟩ | ⟨e₂, h⟩ | ⟨e₃, h⟩ | ⟨e₄, h⟩ | ⟨e₅, h⟩ | ⟨e₆, h⟩
    · exact absurd h hts
    · rw [h]
    · rw [h]
      cases parse_timestamp (raw.timestamp.getD "") <;> simp
    · rw [h]
      cases parse_timestamp (raw.timestamp.getD "") <;>
        cases pyInt (raw.inputTokens.getD (.vint 0)) <;> simp
    · rw [h]
      cases parse_timestamp (raw.timestamp.getD "") <;>
        cases pyInt (raw.inputTokens.getD (.vint 0)) <;>
        cases pyInt (raw.outputTokens.getD (.vint 0)) <;> simp
    · rw [h]
      cases parse_timestamp (raw.timestamp.getD "") <;>
        cases pyInt (raw.inputTokens.getD (.vint 0)) <;>
        cases pyInt (raw.outputTokens.getD (.vint 0)) <;>
        cases pyInt (raw.cacheCreationTokens.getD (.vint 0)) <;> simp
    · rw [h]
      cases parse_timestamp (raw.timestamp.getD "") <;>
        cases pyInt (raw.inputTokens.getD (.vint 0)) <;>
        cases pyInt (raw.outputTokens.getD (.vint 0)) <;>
        cases pyInt (raw.cacheCreationTokens.getD (.vint 0)) <;>
        cases pyInt (raw.cacheReadTokens.getD (.vint 0)) <;> simp

lemma extractBlockLog_skip (xs ys : List RawEntryData) (raw : RawEntryData)
    (h : parseEntry raw = none) :
    extractBlockLog (xs ++ raw :: ys)
      = ((extractBlockLog (xs ++ ys)).1, (extractBlockLog (xs ++ ys)).2 + 1) := by
  induction xs with
  | nil => simp [extractBlockLog, h]
  | cons x xs ih =>
    cases hx : parseEntry x <;> simp [extractBlockLog, hx, ih]

lemma extractLog_skip (pre post : List RawBlock) (b : RawBlock)
    (xs ys : List RawEntryData) (raw : RawEntryData)
    (hb : b.isGap = false) (h : parseEntry raw = none) :
    extractLog (pre ++ { b with entries := xs ++ raw :: ys } :: post)
      = ((extractLog (pre ++ { b with entries := xs ++ ys } :: post)).1,
         (extractLog (pre ++ { b with entries := xs ++ ys } :: post)).2 + 1) := by
  induction pre with
  | nil =>
    simp only [List.nil_append, extractLog, hb, extractBlockLog_skip _ _ _ h]
    simp [Prod.ext_iff]
    omega
  | cons p pre ih =>
    cases hp : p.isGap with
    | true => simpa [extractLog, hp, List.append_eq] using ih
    | false =>
      simp only [List.cons_append, extractLog, hp, List.append_eq, ih]
      simp [Prod.ext_iff]
      omega

lemma extractLog_filter (blocks : List RawBlock) :
    extractLog (blocks.filter (fun b => !b.isGap)) = extractLog blocks := by
  induction blocks with
  | nil => rfl
  | cons b rest ih =>
    cases hb : b.isGap with
    | true => simp [List.filter_cons, hb, extractLog, ih]
    | false => simp [List.filter_cons, hb, extractLog, ih]

/-- C1: every raw entry record accepted by the table-view extraction yields a
`UsageEntry` whose token fields equal `max 0` of the raw integer value and
whose cost equals `max 0.0` of the raw value; in particular negative inputs
are clamped to zero, not rejected. -/
theorem c1_accepted_entries_clamped (raw : RawEntryData) (e : UsageEntry)
    (h : parseEntry raw = some e) :
    ∃ i o cc cr c,
      pyInt (raw.inputTokens.getD (.vint 0)) = .ok i ∧
      pyInt (raw.outputTokens.getD (.vint 0)) = .ok o ∧
      pyInt (raw.cacheCreationTokens.getD (.vint 0)) = .ok cc ∧
      pyInt (raw.cacheReadTokens.getD (.vint 0)) = .ok cr ∧
      pyFloat (raw.costUSD.getD (.vfloat 0)) = .ok c ∧
      e.input_tokens = max 0 i ∧
      e.output_tokens = max 0 o ∧
      e.cache_creation_tokens = max 0 cc ∧
      e.cache_read_tokens = max 0 cr ∧
      e.cost_usd = max 0 c := by
  unfold parseEntry at h
  by_cases hts : raw.timestamp.getD "" = ""
  · simp [hts] at h
  · rw [if_neg hts] at h
    cases hpt : parse_timestamp (raw.timestamp.getD "") with
    | error err => rw [hpt] at h; simp at h
    | ok ts =>
      rw [hpt] at h
      cases hi : pyInt (raw.inputTokens.getD (.vint 0)) with
      | error e₁ => rw [hi] at h; simp at h
      | ok i =>
        rw [hi] at h
        cases ho : pyInt (raw.outputTokens.getD (.vint 0)) with
        | error e₂ => rw [ho] at h; simp at h
        | ok o =>
          rw [ho] at h
          cases hcc : pyInt (raw.cacheCreationTokens.getD (.vint 0)) with
          | error e₃ => rw [hcc] at h; simp at h
          | ok cc =>
            rw [hcc] at h
            cases hcr : pyInt (raw.cacheReadTokens.getD (.vint 0)) with
            | error e₄ => rw [hcr] at h; simp at h
            | ok cr =>
              rw [hcr] at h
              cases hc : pyFloat (raw.costUSD.getD (.vfloat 0)) with
              | error e₅ => rw [hc] at h; simp at h
              | ok c =>
                rw [hc] at h
                simp only [Option.some.injEq] at h
                subst h
                exact ⟨i, o, cc, cr, c, rfl, rfl, rfl, rfl, rfl,
                  rfl, rfl, rfl, rfl, rfl⟩

/-- Witness for C1 at a concrete record whose token and cost values are all
negative: the record is accepted and every clamped field is zero. -/
theorem c1_accepted_entries_clamped_witness :
    parseEntry
        { timestamp := some "100", inputTokens := some (.vint (-5)),
          outputTokens := some (.vint (-7)),
          cacheCreationTokens := some (.vint (-1)),
          cacheReadTokens := some (.vint (-2)),
          costUSD := some (.vint (-3)) }
      = some ⟨100, 0, 0, 0, 0, 0, "", "", ""⟩ ∧
    (∃ i o cc cr c,
      pyInt (some (RawValue.vint (-5)) |>.getD (.vint 0)) = .ok i ∧
      pyInt (some (RawValue.vint (-7)) |>.getD (.vint 0)) = .ok o ∧
      pyInt (some (RawValue.vint (-1)) |>.getD (.vint 0)) = .ok cc ∧
      pyInt (some (RawValue.vint (-2)) |>.getD (.vint 0)) = .ok cr ∧
      pyFloat (some (RawValue.vint (-3)) |>.getD (.vfloat 0)) = .ok c ∧
      (UsageEntry.mk 100 0 0 0 0 0 "" "" "").input_tokens = max 0 i ∧
      (UsageEntry.mk 100 0 0 0 0 0 "" "" "").output_tokens = max 0 o ∧
      (UsageEntry.mk 100 0 0 0 0 0 "" "" "").cache_creation_tokens = max 0 cc ∧
      (UsageEntry.mk 100 0 0 0 0 0 "" "" "").cache_read_tokens = max 0 cr ∧
      (UsageEntry.mk 100 0 0 0 0 0 "" "" "").cost_usd = max 0 c) :=
  ⟨rfl,
   c1_accepted_entries_clamped
     { timestamp := some "100", inputTokens := some (.vint (-5)),
       outputTokens := some (.vint (-7)),
       cacheCreationTokens := some (.vint (-1)),
       cacheReadTokens := some (.vint (-2)),
       costUSD := some (.vint (-3)) }
     ⟨100, 0, 0, 0, 0, 0, "", "", ""⟩ rfl⟩

/-- C2: during `_run_table_view` entry extraction, a record with a missing
timestamp or a failing numeric conversion is skipped with one logged warning,
and every other record — before it, after it, and in the other blocks — is
still processed: the batch result equals the extraction without the bad
record, plus one warning. -/
theorem c2_malformed_record_skipped (pre post : List RawBlock) (b : RawBlock)
    (xs ys : List RawEntryData) (raw : RawEntryData)
    (hb : b.isGap = false) (hm : malformedRecord raw) :
    extractLog (pre ++ { b with entries := xs ++ raw :: ys } :: post)
      = ((extractLog (pre ++ { b with entries := xs ++ ys } :: post)).1,
         (extractLog (pre ++ { b with entries := xs ++ ys } :: post)).2 + 1) :=
  extractLog_skip pre post b xs ys raw hb (parseEntry_of_malformed raw hm)

/-- Witness for C2: a block holding a timestamp-less record followed by a
good record extracts exactly the good record's entry, with one warning. -/
theorem c2_malformed_record_skipped_witness :
    extractLog [{ entries := [({} : RawEntryData), { timestamp := some "5" }] }]
      = ([⟨5, 0, 0, 0, 0, 0, "", "", ""⟩], 1) :=
  Eq.trans
    (c2_malformed_record_skipped [] [] {} [] [{ timestamp := some "5" }]
      {} rfl (Or.inl rfl))
    rfl

/-- C9: gap blocks are skipped entirely by the table-view extraction — the
extracted entry list, and hence the daily and monthly aggregation input, is a
function of the non-gap blocks only. -/
theorem c9_gap_blocks_excluded (blocks : List RawBlock) :
    extractEntries blocks = extractEntries (blocks.filter (fun b => !b.isGap)) ∧
    aggregate_daily (extractEntries blocks)
      = aggregate_daily (extractEntries (blocks.filter (fun b => !b.isGap))) ∧
    aggregate_monthly (extractEntries blocks)
      = aggregate_monthly (extractEntries (blocks.filter (fun b => !b.isGap))) := by
  have h : extractEntries blocks
      = extractEntries (blocks.filter (fun b => !b.isGap)) := by
    unfold extractEntries
    rw [extractLog_filter]
  exact ⟨h, by rw [h], by rw [h]⟩

/-- C3 counterexample: the claim fails at the supplied override value 0.
Python's truthiness test `if ... and args.custom_limit_tokens` treats a
supplied 0 as absent, so `_get_initial_token_limit` enters the usage-data
analysis path (second component `true`) and does not return the supplied
value. -/
theorem c3_counterexample :
    (getInitialTokenLimit { plan := "custom", custom_limit_tokens := some 0 }
        (.ok none)).2 = true ∧
    getInitialTokenLimit { plan := "custom", custom_limit_tokens := some 0 }
        (.ok none) ≠ (0, false) := by
  decide

/-- C3 (amended): for plan `custom`, whenever a nonzero
`custom_limit_tokens` override is supplied, `_get_initial_token_limit`
returns it unchanged (as an integer) and does not read or analyze any usage
data. -/
theorem c3_nonzero_override_returned (args : Args)
    (analysis : Except PyErr (Option UsageData)) (v : Int)
    (hplan : args.plan = "custom") (hv : args.custom_limit_tokens = some v)
    (hnz : v ≠ 0) :
    getInitialTokenLimit args analysis = (v, false) := by
  simp [getInitialTokenLimit, hplan, customLimitTruthy, hv, hnz]

/-- Witness for the amended C3 at override value 5. -/
theorem c3_nonzero_override_returned_witness :
    getInitialTokenLimit { plan := "custom", custom_limit_tokens := some 5 }
        (.ok none) = (5, false) :=
  c3_nonzero_override_returned
    { plan := "custom", custom_limit_tokens := some 5 } (.ok none) 5
    rfl rfl (by decide)

lemma get_token_limit_pos (blocks : List RawBlock) :
    0 < get_token_limit blocks := by
  simp only [get_token_limit]
  split
  · decide
  · split
    · decide
    · omega

/-- C4: for plan `custom` without a usable override,
`_get_initial_token_limit` never raises (it is a total function of the
analysis outcome): an analysis exception degrades to
`Plans.DEFAULT_TOKEN_LIMIT`, and the result is a positive integer on every
path. -/
theorem c4_custom_plan_fallback (args : Args)
    (analysis : Except PyErr (Option UsageData))
    (hplan : args.plan = "custom")
    (hov : customLimitTruthy args.custom_limit_tokens = false) :
    (∀ err, analysis = .error err →
      (getInitialTokenLimit args analysis).1 = DEFAULT_TOKEN_LIMIT) ∧
    0 < (getInitialTokenLimit args analysis).1 := by
  constructor
  · intro err he
    subst he
    simp [getInitialTokenLimit, hplan, hov]
  · cases analysis with
    | error err => simp [getInitialTokenLimit, hplan, hov]; decide
    | ok od =>
      cases od with
      | none => simp [getInitialTokenLimit, hplan, hov]; decide
      | some ud =>
        cases hud : ud.blocks with
        | none => simp [getInitialTokenLimit, hplan, hov, hud]; decide
        | some blocks =>
          simp only [getInitialTokenLimit, hplan, hov, hud, if_pos rfl,
            Bool.false_eq_true, if_false]
          exact get_token_limit_pos blocks

/-- Witness for C4: with plan `custom`, no override and a failing analysis,
the default limit is returned and is positive. -/
theorem c4_custom_plan_fallback_witness :
    (getInitialTokenLimit { plan := "custom" }
        (.error (.otherError "boom"))).1 = DEFAULT_TOKEN_LIMIT ∧
    0 < (getInitialTokenLimit { plan := "custom" }
        (.error (.otherError "boom"))).1 :=
  ⟨(c4_custom_plan_fallback { plan := "custom" }
      (.error (.otherError "boom")) rfl rfl).1 _ rfl,
   (c4_custom_plan_fallback { plan := "custom" }
      (.error (.otherError "boom")) rfl rfl).2⟩

/-- C5: `create_aggregate_table` returns the daily table for `daily`, the
monthly table for `monthly`, and raises `ValueError` exactly for every other
view type — the invalid-kind error is signaled immediately, not retried. -/
theorem c5_aggregate_table_dispatch (d : List AggRow) (t : Totals)
    (tz : String) :
    create_aggregate_table d t "daily" tz = .ok (create_daily_table d t tz) ∧
    create_aggregate_table d t "monthly" tz
      = .ok (create_monthly_table d t tz) ∧
    (∀ v : String,
      (∃ err, create_aggregate_table d t v tz = .error err) ↔
        (v ≠ "daily" ∧ v ≠ "monthly")) ∧
    (∀ v : String, v ≠ "daily" → v ≠ "monthly" →
      create_aggregate_table d t v tz
        = .error (.valueError ("Invalid view type: " ++ v))) := by
  refine ⟨rfl, rfl, ?_, ?_⟩
  · intro v
    constructor
    · rintro ⟨err, he⟩
      constructor <;> rintro rfl <;> simp [create_aggregate_table] at he
    · rintro ⟨h1, h2⟩
      exact ⟨.valueError ("Invalid view type: " ++ v),
        by simp [create_aggregate_table, h1, h2]⟩
  · intro v h1 h2
    simp [create_aggregate_table, h1, h2]

/-- Witness for C5 at the invalid view type `weekly`. -/
theorem c5_aggregate_table_dispatch_witness :
    create_aggregate_table [] {} "weekly" "UTC"
      = .error (.valueError "Invalid view type: weekly") :=
  (c5_aggregate_table_dispatch [] {} "UTC").2.2.2 "weekly"
    (by decide) (by decide)

/-- C6: when the one-shot table view's data read raises `FileNotFoundError`
or `PermissionError`, `_run_table_view` prints the error-kind-specific
message and returns without aggregating, computing totals, or rendering. -/
theorem c6_source_errors_reported (view_mode dataPath : String)
    (hvm : view_mode = "daily" ∨ view_mode = "monthly") :
    runTableView view_mode dataPath true true (.error .fileNotFound)
      = { messages := [("No Claude usage data files found. Please use Claude Code to generate some data.", "warning")],
          aggregated := false, totalsComputed := false, rendered := false } ∧
    runTableView view_mode dataPath true true (.error .permissionError)
      = { messages := [("Permission denied accessing usage data. Check file permissions.", "error")],
          aggregated := false, totalsComputed := false, rendered := false } := by
  rcases hvm with rfl | rfl <;> exact ⟨rfl, rfl⟩

/-- Witness for C6 in daily mode. -/
theorem c6_source_errors_reported_witness :
    runTableView "daily" "/claude" true true (.error .fileNotFound)
      = { messages := [("No Claude usage data files found. Please use Claude Code to generate some data.", "warning")],
          aggregated := false, totalsComputed := false, rendered := false } :=
  (c6_source_errors_reported "daily" "/claude" (Or.inl rfl)).1

/-- C7: when `discover_claude_data_paths` finds no Claude data directory,
`_run_monitoring` reports the absence exactly once with an error message and
returns without constructing (or starting) a `MonitoringOrchestrator`. -/
theorem c7_no_data_dir_no_monitoring (fs : FS) (view_mode : String)
    (h : discover_claude_data_paths fs none = []) :
    runMonitoringStart fs view_mode
      = { messages := [("No Claude data directory found", "error")],
          orchestratorConstructed := false } ∧
    (runMonitoringStart fs view_mode).messages.length = 1 := by
  have he : (discover_claude_data_paths fs none).isEmpty = true := by
    simp [h]
  constructor <;> simp [runMonitoringStart, he]

/-- Witness for C7 on a filesystem with no existing paths. -/
theorem c7_no_data_dir_no_monitoring_witness :
    runMonitoringStart fsAbsent "realtime"
      = { messages := [("No Claude data directory found", "error")],
          orchestratorConstructed := false } :=
  (c7_no_data_dir_no_monitoring fsAbsent "realtime" rfl).1

/-- C8: `calculate_totals` on an empty aggregate-row sequence returns a
totals record with all numeric fields zero and the explicit empty-entries
indicator set; being a total function, it does not raise. -/
theorem c8_calculate_totals_empty :
    calculate_totals [] =
      { input_tokens := 0, output_tokens := 0, cache_creation_tokens := 0,
        cache_read_tokens := 0, total_tokens := 0, total_cost := 0,
        entries_count := 0, is_empty := true } := rfl

lemma dataRow_cells (d : AggRow) :
    ∃ i o cc cr,
      (dataRow d).get? 2 = some (.num i) ∧
      (dataRow d).get? 3 = some (.num o) ∧
      (dataRow d).get? 4 = some (.num cc) ∧
      (dataRow d).get? 5 = some (.num cr) ∧
      (dataRow d).get? 6 = some (.num (i + o + cc + cr)) :=
  ⟨d.input_tokens, d.output_tokens, d.cache_creation_tokens,
    d.cache_read_tokens, rfl, rfl, rfl, rfl, rfl⟩

lemma rows_take_data (l : List AggRow) (extra : List (List Cell)) :
    (l.map dataRow ++ extra).take l.length = l.map dataRow := by
  rw [show l.length = (l.map dataRow).length by simp]
  exact List.take_left _ _

/-- C10: in every data row of the daily and the monthly table, the
`Total Tokens` cell equals the sum of that row's input, output,
cache-creation and cache-read token cells. -/
theorem c10_total_tokens_cell (dd md : List AggRow) (t : Totals)
    (tz : String) :
    (∀ r ∈ (create_daily_table dd t tz).rows.take dd.length,
      ∃ i o cc cr,
        r.get? 2 = some (.num i) ∧ r.get? 3 = some (.num o) ∧
        r.get? 4 = some (.num cc) ∧ r.get? 5 = some (.num cr) ∧
        r.get? 6 = some (.num (i + o + cc + cr))) ∧
    (∀ r ∈ (create_monthly_table md t tz).rows.take md.length,
      ∃ i o cc cr,
        r.get? 2 = some (.num i) ∧ r.get? 3 = some (.num o) ∧
        r.get? 4 = some (.num cc) ∧ r.get? 5 = some (.num cr) ∧
        r.get? 6 = some (.num (i + o + cc + cr))) := by
  constructor
  · intro r hr
    rw [show (create_daily_table dd t tz).rows
        = dd.map dataRow ++ [separatorRow, totalsRow t] from rfl,
      rows_take_data] at hr
    rcases List.mem_map.1 hr with ⟨d, _, rfl⟩
    exact dataRow_cells d
  · intro r hr
    rw [show (create_monthly_table md t tz).rows
        = md.map dataRow ++ [separatorRow, totalsRow t] from rfl,
      rows_take_data] at hr
    rcases List.mem_map.1 hr with ⟨d, _, rfl⟩
    exact dataRow_cells d

/-- Witness for C10 on a one-row table with token fields 1, 2, 3, 4 (total
cell 10). -/
theorem c10_total_tokens_cell_witness :
    ∃ i o cc cr,
      (dataRow sampleRow).get? 2 = some (.num i) ∧
      (dataRow sampleRow).get? 3 = some (.num o) ∧
      (dataRow sampleRow).get? 4 = some (.num cc) ∧
      (dataRow sampleRow).get? 5 = some (.num cr) ∧
      (dataRow sampleRow).get? 6 = some (.num (i + o + cc + cr)) :=
  (c10_total_tokens_cell [sampleRow] [sampleRow] {} "UTC").1
    (dataRow sampleRow) (by simp [create_daily_table])

end ClaudeMonitor
